import Mathlib

/-!
Shallow embedding of `src/Utilities/PythonInterpreter/vtkPythonInterpreter.cxx`
in its non-Windows, Python-3 configuration (path separator `/`, the
`PY_VERSION_HEX >= 0x03000000` branches).  External collaborators — the
embedded Python runtime, the filesystem, vtksys helpers, locale decoding —
are oracles supplied through a `Config` record.  The process-wide mutable
state of the translation unit (the static members of `vtkPythonInterpreter`,
the file-static `GlobalInterpreters` and `PythonPaths` vectors, and the
interpreter runtime's own state) is the explicit `PyState` record, and every
observable side effect (event notifications, output-window display calls,
scripts handed to `PyRun_SimpleString`, invocations of `Py_Main`) is appended
to an event log.
-/

namespace VTKPy

/-- The `vtkCommand` event kinds used by the translation unit: `EnterEvent`,
`ExitEvent`, `ErrorEvent`, `SetOutputEvent`, `UpdateEvent`. -/
inductive EventKind
  | enter
  | exit
  | error
  | setOutput
  | update
deriving DecidableEq

/-- Observable effects of the translation unit, recorded in order:
`notify` is one `InvokeEvent` delivery to one registered interpreter
instance; `displayText` / `displayError` are `vtkOutputWindowDisplayText` /
`vtkOutputWindowDisplayErrorText` calls; `executed` records the text handed
to `PyRun_SimpleString`; `nativeMain` records the (decoded) argument vector
handed to `Py_Main`; `decodeFailure` is the `fprintf(stderr, ...)` diagnostic
for an undecodable command-line argument; `printedVersion` is the VTK
version print triggered by `-V`. -/
inductive Event
  | notify (target : Nat) (kind : EventKind) (payload : Option String)
  | displayText (txt : String)
  | displayError (txt : String)
  | executed (script : String)
  | nativeMain (args : List String)
  | decodeFailure (arg : String)
  | printedVersion
deriving DecidableEq

/-- The process-wide state of the translation unit.  Interpreter instances
(`vtkPythonInterpreter` objects) are identified by natural numbers;
`interpreters` is the `GlobalInterpreters` vector (ids in registration
order) and `destroyed` marks objects whose destructor has run, so that the
`vtkWeakPointer` held for them reads as null. -/
structure PyState where
  /-- `Py_IsInitialized() != 0`: the runtime is currently started. -/
  pyInit : Bool := false
  /-- static member `vtkPythonInterpreter::InitializedOnce`. -/
  initializedOnce : Bool := false
  /-- static member `vtkPythonInterpreter::ConsoleBuffering`. -/
  consoleBuffering : Bool := false
  /-- static member `vtkPythonInterpreter::StdOutBuffer`. -/
  stdOutBuffer : String := ""
  /-- static member `vtkPythonInterpreter::StdErrBuffer`. -/
  stdErrBuffer : String := ""
  /-- file-static `PythonPaths` vector (pending module search paths). -/
  pythonPaths : List String := []
  /-- the runtime's `sys.path` list (meaningful once `pyInit` is true). -/
  sysPath : List String := []
  /-- whether the stream-capture helpers have been installed as the
  runtime's `sys.stdout` / `sys.stderr` / `sys.stdin`. -/
  streamsBound : Bool := false
  /-- file-static `GlobalInterpreters`, registration order preserved. -/
  interpreters : List Nat := []
  /-- ids whose destructor has run (their weak pointers read null). -/
  destroyed : List Nat := []
  /-- static member `vtkPythonInterpreter::PythonVerboseFlag`. -/
  pythonVerboseFlag : Nat := 0
  /-- `Py_GetPythonHome()` (`none` models a null pointer). -/
  pythonHome : Option String := none
  /-- `Py_GetProgramName()`, decoded; the runtime's default is "python". -/
  programName : String := "python"
  /-- `vtksys::SystemInformation::SetStackTraceOnError(1)` has been done. -/
  stackTraceOnError : Bool := false
  /-- static member `vtkPythonInterpreter::CaptureStdin`. -/
  captureStdin : Bool := false
  /-- the ordered log of observable effects. -/
  log : List Event := []
deriving DecidableEq

/-- Result of the runtime executing one script: the `PyRun_SimpleString`
return value and the ordered writes the interpreter pushes through
`sys.stdout` / `sys.stderr` during the execution (`true` marks a stderr
write). -/
structure ExecResult where
  ret : Int
  writes : List (Bool × String)

/-- Filesystem oracle: `vtksys::SystemTools::FileExists` and
`vtksys::SystemTools::FileIsDirectory`. -/
structure FileSystem where
  fileExists : String → Bool
  isDirectory : String → Bool

/-- External collaborators of the translation unit, fixed per process. -/
structure Config where
  fs : FileSystem
  /-- behaviour of `PyRun_SimpleString` on a given script text. -/
  exec : String → ExecResult
  /-- compile-time constant `VTK_PYTHON_SITE_PACKAGES_SUFFIX`. -/
  sitePackagesSuffix : String
  /-- `GetLibraryForSymbol` for "Py_SetProgramName" (empty = not found). -/
  locate : String → String
  /-- `vtk_Py_DecodeLocale` (`none` models a null result). -/
  decodeLocale : String → Option String
  /-- return value of `Py_Main` on a decoded argument vector. -/
  pyMainNative : List String → Int
  /-- the `sys.path` the runtime establishes inside `Py_InitializeEx`. -/
  initialSysPath : List String
  /-- `GetLibraryForSymbol("GetVTKVersion")` under `VTK_BUILD_SHARED_LIBS`
  (empty string for a static build or lookup failure). -/
  vtkLib : String
  /-- `systools::SplitPath (systools::CollapseFullPath programName)`:
  external vtksys behaviour, dependent on the working directory. -/
  collapseSplit : String → List String

/-! ## vtksys path helpers (models of external `vtksys::SystemTools`) -/

/-- Model of `vtksys::SystemTools::GetFilenamePath` (POSIX): everything up
to, but not including, the last `/`; `/` when the last slash is leading;
empty when there is no slash. -/
def getFilenamePath (p : String) : String :=
  let r := p.toList.reverse
  if r.contains '/' then
    let s := (r.dropWhile (fun c => c != '/')).drop 1
    if s.isEmpty then "/" else String.mk s.reverse
  else ""

/-- Model of `vtksys::SystemTools::SplitPath` (POSIX): a root component
(`/` for absolute, empty for relative paths) followed by the `/`-separated
components. -/
def splitPath (p : String) : List String :=
  if p.startsWith "/" then "/" :: (p.drop 1).splitOn "/"
  else "" :: p.splitOn "/"

/-- Tail of `vtksys::SystemTools::JoinPath`: every component after the
second is preceded by a separator. -/
def joinRest : List String → String
  | [] => ""
  | c :: rest => "/" ++ c ++ joinRest rest

/-- Model of `vtksys::SystemTools::JoinPath`: the first two components are
concatenated without a separator (the first is the root), the rest each
preceded by `/`. -/
def joinPath : List String → String
  | [] => ""
  | [a] => a
  | a :: b :: rest => a ++ b ++ joinRest rest

/-! ## Core helpers of the translation unit -/

/-- The registered interpreter instances whose weak pointer is non-null,
in registration order (`iter->GetPointer()` check in `NotifyInterpreters`). -/
def liveTargets (s : PyState) : List Nat :=
  s.interpreters.filter (fun t => !s.destroyed.contains t)

/-- `NotifyInterpreters(eventid, calldata)`: invoke the event on every
live registered instance, in registration order. -/
def NotifyInterpreters (kind : EventKind) (payload : Option String) (s : PyState) : PyState :=
  { s with log := s.log ++ (liveTargets s).map (fun t => Event.notify t kind payload) }

/-- `vtkOutputWindowDisplayText`. -/
def vtkOutputWindowDisplayText (txt : String) (s : PyState) : PyState :=
  { s with log := s.log ++ [Event.displayText txt] }

/-- `vtkOutputWindowDisplayErrorText`. -/
def vtkOutputWindowDisplayErrorText (txt : String) (s : PyState) : PyState :=
  { s with log := s.log ++ [Event.displayError txt] }

/-- `vtkPrependPythonPath` (the file-static helper): `PyList_Insert(path,
0, newpath)`, inserting at the front of `sys.path`. -/
def vtkPrependPythonPath (p : String) (s : PyState) : PyState :=
  { s with sysPath := p :: s.sysPath }

/-- `vtkSafePrependPythonPath`: prepend only when the string is non-empty
and names an existing directory. -/
def vtkSafePrependPythonPath (fs : FileSystem) (p : String) (s : PyState) : PyState :=
  if !p.isEmpty && fs.isDirectory p then vtkPrependPythonPath p s else s

/-- `vtkPythonInterpreter::vtkPythonInterpreter()`: the constructor pushes
the instance onto `GlobalInterpreters`. -/
def construct (id : Nat) (s : PyState) : PyState :=
  { s with interpreters := s.interpreters ++ [id] }

/-- `vtkPythonInterpreter::~vtkPythonInterpreter()`: the destructor erases
the first exact-identity match from `GlobalInterpreters`; in addition, all
weak pointers to the object now read null. -/
def destroy (id : Nat) (s : PyState) : PyState :=
  { s with interpreters := s.interpreters.erase id, destroyed := id :: s.destroyed }

/-- `vtkPythonInterpreter::WriteStdOut`. -/
def WriteStdOut (txt : String) (s : PyState) : PyState :=
  if s.consoleBuffering then { s with stdOutBuffer := s.stdOutBuffer ++ txt }
  else NotifyInterpreters EventKind.setOutput (some txt) (vtkOutputWindowDisplayText txt s)

/-- `vtkPythonInterpreter::WriteStdErr`. -/
def WriteStdErr (txt : String) (s : PyState) : PyState :=
  if s.consoleBuffering then { s with stdErrBuffer := s.stdErrBuffer ++ txt }
  else NotifyInterpreters EventKind.error (some txt) (vtkOutputWindowDisplayErrorText txt s)

/-- One interpreter write routed through the bound stream helpers. -/
def applyWrite (w : Bool × String) (s : PyState) : PyState :=
  if w.1 then WriteStdErr w.2 s else WriteStdOut w.2 s

/-- The `buffer.erase(std::remove(..., '\r'), ...)` carriage-return strip
in `RunSimpleString`. -/
def removeCR (t : String) : String :=
  String.mk (t.toList.filter (fun c => c != '\r'))

/-- The `script ? script : ""` null guard in `RunSimpleString`. -/
def scriptText : Option String → String
  | none => ""
  | some t => t

/-- `vtkPythonInterpreter::SetupPythonPrefix`: do nothing when
`Py_GetPythonHome()` is already set; do nothing when the runtime library
cannot be located; do nothing when the program name was already customized
away from the default "python"; otherwise point the program name at
`<directory of the runtime library>/vtkpython`. -/
def SetupPythonPrefix (cfg : Config) (s : PyState) : PyState :=
  match s.pythonHome with
  | some _ => s
  | none =>
    let pythonlib := cfg.locate "Py_SetProgramName"
    if pythonlib.isEmpty then s
    else if s.programName = "python" then
      { s with programName := getFilenamePath pythonlib ++ "/" ++ "vtkpython" }
    else s

/-- The fixed landmark relative path (POSIX branch). -/
def landmarkFile : String := "vtk/__init__.py"

/-- `curprefix + VTK_PATH_SEPARATOR + sitepackages` for a component list. -/
def pathToCheck (sp : String) (comps : List String) : String :=
  joinPath comps ++ "/" ++ sp

/-- Structural worker for `landmarkWalk`: the first argument is the length
of the component list, which shrinks by exactly one with every `pop_back`,
so using it as structural fuel is exact, not an approximation. -/
def landmarkWalkAux (fs : FileSystem) (sp : String) : Nat → List String → PyState → PyState
  | 0, _, s => s
  | _ + 1, [], s => s
  | n + 1, c :: rest, s =>
    let ptc := pathToCheck sp (c :: rest)
    if fs.fileExists (ptc ++ "/" ++ landmarkFile) then vtkSafePrependPythonPath fs ptc s
    else landmarkWalkAux fs sp n (c :: rest).dropLast s

/-- The `while (!vtkprefix_components.empty())` loop of
`SetupVTKPythonPaths`: test `<candidate>/<site-packages-suffix>/<landmark>`
at each ancestor, prepend and stop on the first hit, otherwise pop the last
component and continue. -/
def landmarkWalk (fs : FileSystem) (sp : String) (comps : List String) (s : PyState) : PyState :=
  landmarkWalkAux fs sp comps.length comps s

theorem landmarkWalk_nil (fs : FileSystem) (sp : String) (s : PyState) :
    landmarkWalk fs sp [] s = s := rfl

theorem landmarkWalk_cons (fs : FileSystem) (sp : String) (c : String) (rest : List String)
    (s : PyState) :
    landmarkWalk fs sp (c :: rest) s =
      if fs.fileExists (pathToCheck sp (c :: rest) ++ "/" ++ landmarkFile) then
        vtkSafePrependPythonPath fs (pathToCheck sp (c :: rest)) s
      else landmarkWalk fs sp (c :: rest).dropLast s := by
  simp [landmarkWalk, landmarkWalkAux, List.length_dropLast]

/-- `vtkPythonInterpreter::SetupVTKPythonPaths`: the starting component
list comes from the VTK shared library location when available, otherwise
from the collapsed program name; then the landmark walk runs. -/
def SetupVTKPythonPaths (cfg : Config) (s : PyState) : PyState :=
  let comps :=
    if cfg.vtkLib.isEmpty then cfg.collapseSplit s.programName
    else splitPath (getFilenamePath cfg.vtkLib)
  landmarkWalk cfg.fs cfg.sitePackagesSuffix comps s

/-- `Py_InitializeEx`: the runtime starts and establishes its own
`sys.path`.  (The `initsigs` signal-handler detail is not modelled.) -/
def pyInitializeEx (cfg : Config) (s : PyState) : PyState :=
  { s with pyInit := true, sysPath := cfg.initialSysPath }

/-- The `if (!vtkPythonInterpreter::StdErrBuffer.empty()) { ... }` flush
statement of `RunSimpleString`: display the accumulated stderr text, send
one `ErrorEvent` notification batch carrying it, clear the accumulator. -/
def flushErrAccumulator (s : PyState) : PyState :=
  if s.stdErrBuffer.isEmpty then s
  else
    let t := NotifyInterpreters EventKind.error (some s.stdErrBuffer)
      (vtkOutputWindowDisplayErrorText s.stdErrBuffer s)
    { t with stdErrBuffer := "" }

/-- The `if (!vtkPythonInterpreter::StdOutBuffer.empty()) { ... }` flush
statement of `RunSimpleString`: display the accumulated stdout text, send
one `SetOutputEvent` notification batch carrying it, clear the
accumulator. -/
def flushOutAccumulator (s : PyState) : PyState :=
  if s.stdOutBuffer.isEmpty then s
  else
    let t := NotifyInterpreters EventKind.setOutput (some s.stdOutBuffer)
      (vtkOutputWindowDisplayText s.stdOutBuffer s)
    { t with stdOutBuffer := "" }

/-- The body of `vtkPythonInterpreter::RunSimpleString` after its leading
`Initialize(1)` call: turn console buffering on, strip carriage returns,
hand the script to `PyRun_SimpleString` (whose writes arrive through the
bound stream helpers), turn buffering off, then flush and clear each
non-empty accumulator (stderr first) as one display call plus one
notification batch. -/
def RSSCore (cfg : Config) (script : Option String) (s : PyState) : Int × PyState :=
  let s2 := { s with consoleBuffering := true }
  let buffer := removeCR (scriptText script)
  let s3 := { s2 with log := s2.log ++ [Event.executed buffer] }
  let res := cfg.exec buffer
  let s4 := if s3.streamsBound then res.writes.foldl (fun t w => applyWrite w t) s3 else s3
  let s5 := { s4 with consoleBuffering := false }
  (res.ret, flushOutAccumulator (flushErrAccumulator s5))

/-- `vtkPythonInterpreter::Initialize`, fuelled.  The one-time branch calls
`RunSimpleString("")` — i.e. a recursive `Initialize` (with fuel) followed
by `RSSCore` — then binds the stream helpers, runs `SetupVTKPythonPaths`,
replays the pending `PythonPaths` in order, and notifies observers of the
enter event.  The recursive call always sees `initializedOnce = true`, so
any fuel value (including 0) yields the same saturated no-op there; fuel
exists only to make the recursion structural. -/
def InitializeF (cfg : Config) : Nat → PyState → Bool × PyState
  | 0, s => (false, s)
  | fuel + 1, s =>
    let s1 := if s.pyInit then s else pyInitializeEx cfg (SetupPythonPrefix cfg s)
    if s1.initializedOnce then (false, s1)
    else
      let s2 := { s1 with initializedOnce := true }
      let s3 := (RSSCore cfg (some "") (InitializeF cfg fuel s2).2).2
      let s4 := { s3 with streamsBound := true }
      let s5 := SetupVTKPythonPaths cfg s4
      let s6 := s5.pythonPaths.foldl (fun t p => vtkPrependPythonPath p t) s5
      (true, NotifyInterpreters EventKind.enter none s6)

/-- `vtkPythonInterpreter::Initialize`. -/
def Initialize (cfg : Config) (s : PyState) : Bool × PyState :=
  InitializeF cfg 8 s

/-- `vtkPythonInterpreter::RunSimpleString` (`none` models a null script
pointer): ensure initialized, then run the core. -/
def RunSimpleString (cfg : Config) (script : Option String) (s : PyState) : Int × PyState :=
  RSSCore cfg script (InitializeF cfg 8 s).2

/-- `vtkPythonInterpreter::Finalize`. -/
def Finalize (s : PyState) : PyState :=
  if s.pyInit then
    let t := NotifyInterpreters EventKind.exit none s
    { t with pyInit := false }
  else s

/-- `vtkPythonInterpreter::PrependPythonPath` (`none` models a null
pointer): record the path in `PythonPaths`, and prepend it to the live
`sys.path` only when the runtime is already started.  (The
slash-conversion step is Windows-only and is the identity here.) -/
def PrependPythonPath (dir : Option String) (s : PyState) : PyState :=
  match dir with
  | none => s
  | some d =>
    let s1 := { s with pythonPaths := s.pythonPaths ++ [d] }
    if s1.pyInit then vtkPrependPythonPath d s1 else s1

/-- The verbosity scan at the top of `PyMain`: each `-v` increments the
flag, each `-vv` forces it to 2, scanning left to right. -/
def verbosityScan (args : List String) : Nat :=
  args.foldl (fun n a =>
    let m := if a = "-v" then n + 1 else n
    if a = "-vv" then 2 else m) 0

/-- The argument-conversion loop of `PyMain` (Python-3 branch):
`--enable-bt` sets the stack-trace flag and is skipped; `-V` prints the
VTK version and still passes through; every other argument is decoded and
appended — a decode failure prints a diagnostic and returns 1 at once;
when the loop completes, `Py_Main` runs on the accumulated vector. -/
def PyMainLoop (cfg : Config) : List String → List String → PyState → Int × PyState
  | [], acc, s => (cfg.pyMainNative acc, { s with log := s.log ++ [Event.nativeMain acc] })
  | a :: rest, acc, s =>
    if a = "--enable-bt" then PyMainLoop cfg rest acc { s with stackTraceOnError := true }
    else
      let s1 := if a = "-V" then { s with log := s.log ++ [Event.printedVersion] } else s
      match cfg.decodeLocale a with
      | none => (1, { s1 with log := s1.log ++ [Event.decodeFailure a] })
      | some w => PyMainLoop cfg rest (acc ++ [w]) s1

/-- `vtkPythonInterpreter::PyMain`: reset and scan the verbosity flag,
ensure initialized, then run the conversion loop and `Py_Main`. -/
def PyMain (cfg : Config) (args : List String) (s : PyState) : Int × PyState :=
  let s1 := { s with pythonVerboseFlag := verbosityScan args }
  let s2 := (InitializeF cfg 8 s1).2
  PyMainLoop cfg args [] s2

/-! ## Derived observation helpers -/

/-- The events a step appended beyond an earlier state's log. -/
def newEvents (s t : PyState) : List Event :=
  t.log.drop s.log.length

/-- The scripts handed to `PyRun_SimpleString`, in order. -/
def executedScripts (l : List Event) : List String :=
  l.filterMap (fun e => match e with | Event.executed t => some t | _ => none)

/-- The argument vectors handed to `Py_Main`, in order. -/
def nativeCalls (l : List Event) : List (List String) :=
  l.filterMap (fun e => match e with | Event.nativeMain a => some a | _ => none)

/-- Recognize a notification delivered to a given instance with a given
event kind. -/
def isNotifyTo (id : Nat) (k : EventKind) : Event → Bool
  | Event.notify t k' _ => t == id && k == k'
  | _ => false

/-- Recognize a `vtkOutputWindowDisplayText` entry. -/
def isDisplayText : Event → Bool
  | Event.displayText _ => true
  | _ => false

/-- Recognize a `vtkOutputWindowDisplayErrorText` entry. -/
def isDisplayError : Event → Bool
  | Event.displayError _ => true
  | _ => false

/-- Concatenation of the stdout portion of an interleaved write list. -/
def concatOut : List (Bool × String) → String
  | [] => ""
  | (e, t) :: r => (if e then "" else t) ++ concatOut r

/-- Concatenation of the stderr portion of an interleaved write list. -/
def concatErr : List (Bool × String) → String
  | [] => ""
  | (e, t) :: r => (if e then t else "") ++ concatErr r

/-- A fresh process state: nothing initialized, nothing registered. -/
def freshState : PyState := {}

/-! ## Helper lemmas -/

theorem empty_isEmpty : "".isEmpty = true := rfl

theorem foldl_applyWrite (ws : List (Bool × String)) (s : PyState)
    (h : s.consoleBuffering = true) :
    ws.foldl (fun t w => applyWrite w t) s
      = { s with stdOutBuffer := s.stdOutBuffer ++ concatOut ws,
                 stdErrBuffer := s.stdErrBuffer ++ concatErr ws } := by
  induction ws generalizing s with
  | nil => simp [concatOut, concatErr, String.append_empty]
  | cons w rest ih =>
    obtain ⟨e, t⟩ := w
    cases e with
    | false =>
      have h1 : applyWrite (false, t) s = { s with stdOutBuffer := s.stdOutBuffer ++ t } := by
        simp [applyWrite, WriteStdOut, h]
      simp only [List.foldl_cons, h1]
      rw [ih { s with stdOutBuffer := s.stdOutBuffer ++ t } h]
      simp [concatOut, concatErr, String.append_assoc, String.empty_append]
    | true =>
      have h1 : applyWrite (true, t) s = { s with stdErrBuffer := s.stdErrBuffer ++ t } := by
        simp [applyWrite, WriteStdErr, h]
      simp only [List.foldl_cons, h1]
      rw [ih { s with stdErrBuffer := s.stdErrBuffer ++ t } h]
      simp [concatOut, concatErr, String.append_assoc, String.empty_append]

theorem flushErr_eq (u : PyState) :
    flushErrAccumulator u
      = { u with stdErrBuffer := "",
                 log := u.log ++ (if u.stdErrBuffer.isEmpty then []
                   else Event.displayError u.stdErrBuffer ::
                     (liveTargets u).map
                       (fun t => Event.notify t EventKind.error (some u.stdErrBuffer))) } := by
  by_cases h : u.stdErrBuffer.isEmpty
  · have he : u.stdErrBuffer = "" := (String.isEmpty_iff _).mp h
    have hu : u = { u with stdErrBuffer := "" } := by rw [← he]
    simp only [flushErrAccumulator, h, if_true, List.append_nil]
    exact hu
  · simp only [flushErrAccumulator, h]
    simp [NotifyInterpreters, vtkOutputWindowDisplayErrorText, liveTargets, List.append_assoc]

theorem flushOut_eq (u : PyState) :
    flushOutAccumulator u
      = { u with stdOutBuffer := "",
                 log := u.log ++ (if u.stdOutBuffer.isEmpty then []
                   else Event.displayText u.stdOutBuffer ::
                     (liveTargets u).map
                       (fun t => Event.notify t EventKind.setOutput (some u.stdOutBuffer))) } := by
  by_cases h : u.stdOutBuffer.isEmpty
  · have he : u.stdOutBuffer = "" := (String.isEmpty_iff _).mp h
    have hu : u = { u with stdOutBuffer := "" } := by rw [← he]
    simp only [flushOutAccumulator, h, if_true, List.append_nil]
    exact hu
  · simp only [flushOutAccumulator, h]
    simp [NotifyInterpreters, vtkOutputWindowDisplayText, liveTargets, List.append_assoc]

theorem RSSCore_eq (cfg : Config) (sc : Option String) (s : PyState)
    (ws : List (Bool × String)) (eC oC : String)
    (hws : ws = if s.streamsBound then (cfg.exec (removeCR (scriptText sc))).writes else [])
    (heC : eC = s.stdErrBuffer ++ concatErr ws)
    (hoC : oC = s.stdOutBuffer ++ concatOut ws) :
    RSSCore cfg sc s =
      ((cfg.exec (removeCR (scriptText sc))).ret,
       { s with consoleBuffering := false, stdOutBuffer := "", stdErrBuffer := "",
                log := s.log ++ [Event.executed (removeCR (scriptText sc))]
                  ++ (if eC.isEmpty then []
                      else Event.displayError eC ::
                        (liveTargets s).map (fun t => Event.notify t EventKind.error (some eC)))
                  ++ (if oC.isEmpty then []
                      else Event.displayText oC ::
                        (liveTargets s).map
                          (fun t => Event.notify t EventKind.setOutput (some oC))) }) := by
  subst hws heC hoC
  unfold RSSCore
  cases hb : s.streamsBound with
  | false =>
    simp only [hb, Bool.false_eq_true, if_false]
    rw [flushErr_eq, flushOut_eq]
    simp [concatOut, concatErr, String.append_empty, liveTargets, List.append_assoc]
  | true =>
    simp only [hb, if_true]
    rw [foldl_applyWrite]
    · rw [flushErr_eq, flushOut_eq]
      simp [liveTargets, List.append_assoc]
    · rfl

theorem InitializeF_saturated (cfg : Config) (f : Nat) (s : PyState)
    (h1 : s.pyInit = true) (h2 : s.initializedOnce = true) :
    InitializeF cfg f s = (false, s) := by
  cases f with
  | zero => rfl
  | succ n => simp [InitializeF, h1, h2]

theorem foldl_vtkPrepend (l : List String) (s : PyState) :
    l.foldl (fun t p => vtkPrependPythonPath p t) s
      = { s with sysPath := l.reverse ++ s.sysPath } := by
  induction l generalizing s with
  | nil => rfl
  | cons a rest ih =>
    simp only [List.foldl_cons]
    rw [ih]
    simp [vtkPrependPythonPath, List.append_assoc]

theorem SetupPythonPrefix_shape (cfg : Config) (s : PyState) :
    ∃ pn, SetupPythonPrefix cfg s = { s with programName := pn } := by
  obtain ⟨a1, a2, a3, a4, a5, a6, a7, a8, a9, a10, a11, a12, a13, a14, a15, a16⟩ := s
  unfold SetupPythonPrefix
  cases a12 with
  | some v => exact ⟨a13, rfl⟩
  | none =>
    by_cases hL : (cfg.locate "Py_SetProgramName").isEmpty
    · exact ⟨a13, by simp [hL]⟩
    · by_cases hN : a13 = "python"
      · exact ⟨getFilenamePath (cfg.locate "Py_SetProgramName") ++ "/" ++ "vtkpython",
          by simp [hL, hN]⟩
      · exact ⟨a13, by simp [hL, hN]⟩

theorem landmarkWalk_shape_aux (fs : FileSystem) (sp : String) :
    ∀ (n : Nat) (comps : List String) (s : PyState), comps.length ≤ n →
      ∃ q, landmarkWalk fs sp comps s = { s with sysPath := q } := by
  intro n
  induction n with
  | zero =>
    intro comps s hle
    have hc : comps = [] := List.eq_nil_of_length_eq_zero (Nat.le_zero.mp hle)
    subst hc
    exact ⟨s.sysPath, rfl⟩
  | succ n ih =>
    intro comps s hle
    cases comps with
    | nil => exact ⟨s.sysPath, rfl⟩
    | cons c rest =>
      rw [landmarkWalk_cons]
      split
      · unfold vtkSafePrependPythonPath vtkPrependPythonPath
        split
        · exact ⟨_, rfl⟩
        · exact ⟨s.sysPath, rfl⟩
      · apply ih
        simp only [List.length_dropLast, List.length_cons] at hle ⊢
        omega

theorem landmarkWalk_shape (fs : FileSystem) (sp : String) (comps : List String) (s : PyState) :
    ∃ q, landmarkWalk fs sp comps s = { s with sysPath := q } :=
  landmarkWalk_shape_aux fs sp comps.length comps s (Nat.le_refl _)

theorem SetupVTKPythonPaths_shape (cfg : Config) (s : PyState) :
    ∃ q, SetupVTKPythonPaths cfg s = { s with sysPath := q } := by
  unfold SetupVTKPythonPaths
  exact landmarkWalk_shape _ _ _ _

theorem InitializeF_step (cfg : Config) (f : Nat) (s : PyState)
    (h1 : s.pyInit = false) (h2 : s.initializedOnce = false) :
    InitializeF cfg (f + 1) s =
      (true,
       NotifyInterpreters EventKind.enter none
         (let s5 := SetupVTKPythonPaths cfg
             { (RSSCore cfg (some "")
                 { pyInitializeEx cfg (SetupPythonPrefix cfg s) with
                   initializedOnce := true }).2 with streamsBound := true }
          s5.pythonPaths.foldl (fun t p => vtkPrependPythonPath p t) s5)) := by
  obtain ⟨pn, hpn⟩ := SetupPythonPrefix_shape cfg s
  simp only [InitializeF, pyInitializeEx, h1, Bool.false_eq_true, if_false]
  rw [hpn]
  simp only [h2, Bool.false_eq_true, if_false]
  rw [InitializeF_saturated cfg f _ rfl rfl]

/-! ### Field-preservation lemmas -/

@[simp] theorem Notify_pyInit (k p s) : (NotifyInterpreters k p s).pyInit = s.pyInit := rfl

@[simp] theorem Notify_initializedOnce (k p s) :
    (NotifyInterpreters k p s).initializedOnce = s.initializedOnce := rfl

@[simp] theorem Notify_pythonPaths (k p s) :
    (NotifyInterpreters k p s).pythonPaths = s.pythonPaths := rfl

@[simp] theorem Notify_sysPath (k p s) : (NotifyInterpreters k p s).sysPath = s.sysPath := rfl

@[simp] theorem Notify_streamsBound (k p s) :
    (NotifyInterpreters k p s).streamsBound = s.streamsBound := rfl

@[simp] theorem Notify_interpreters (k p s) :
    (NotifyInterpreters k p s).interpreters = s.interpreters := rfl

@[simp] theorem Notify_destroyed (k p s) :
    (NotifyInterpreters k p s).destroyed = s.destroyed := rfl

@[simp] theorem Notify_pythonVerboseFlag (k p s) :
    (NotifyInterpreters k p s).pythonVerboseFlag = s.pythonVerboseFlag := rfl

@[simp] theorem Notify_log (k p s) :
    (NotifyInterpreters k p s).log
      = s.log ++ (liveTargets s).map (fun t => Event.notify t k p) := rfl

@[simp] theorem spp_pyInit (cfg s) : (SetupPythonPrefix cfg s).pyInit = s.pyInit := by
  obtain ⟨pn, h⟩ := SetupPythonPrefix_shape cfg s; rw [h]

@[simp] theorem spp_initializedOnce (cfg s) :
    (SetupPythonPrefix cfg s).initializedOnce = s.initializedOnce := by
  obtain ⟨pn, h⟩ := SetupPythonPrefix_shape cfg s; rw [h]

@[simp] theorem spp_pythonPaths (cfg s) :
    (SetupPythonPrefix cfg s).pythonPaths = s.pythonPaths := by
  obtain ⟨pn, h⟩ := SetupPythonPrefix_shape cfg s; rw [h]

@[simp] theorem spp_sysPath (cfg s) : (SetupPythonPrefix cfg s).sysPath = s.sysPath := by
  obtain ⟨pn, h⟩ := SetupPythonPrefix_shape cfg s; rw [h]

@[simp] theorem spp_streamsBound (cfg s) :
    (SetupPythonPrefix cfg s).streamsBound = s.streamsBound := by
  obtain ⟨pn, h⟩ := SetupPythonPrefix_shape cfg s; rw [h]

@[simp] theorem spp_interpreters (cfg s) :
    (SetupPythonPrefix cfg s).interpreters = s.interpreters := by
  obtain ⟨pn, h⟩ := SetupPythonPrefix_shape cfg s; rw [h]

@[simp] theorem spp_destroyed (cfg s) :
    (SetupPythonPrefix cfg s).destroyed = s.destroyed := by
  obtain ⟨pn, h⟩ := SetupPythonPrefix_shape cfg s; rw [h]

@[simp] theorem spp_pythonVerboseFlag (cfg s) :
    (SetupPythonPrefix cfg s).pythonVerboseFlag = s.pythonVerboseFlag := by
  obtain ⟨pn, h⟩ := SetupPythonPrefix_shape cfg s; rw [h]

@[simp] theorem spp_log (cfg s) : (SetupPythonPrefix cfg s).log = s.log := by
  obtain ⟨pn, h⟩ := SetupPythonPrefix_shape cfg s; rw [h]

@[simp] theorem spp_stdOutBuffer (cfg s) :
    (SetupPythonPrefix cfg s).stdOutBuffer = s.stdOutBuffer := by
  obtain ⟨pn, h⟩ := SetupPythonPrefix_shape cfg s; rw [h]

@[simp] theorem spp_stdErrBuffer (cfg s) :
    (SetupPythonPrefix cfg s).stdErrBuffer = s.stdErrBuffer := by
  obtain ⟨pn, h⟩ := SetupPythonPrefix_shape cfg s; rw [h]

@[simp] theorem spp_consoleBuffering (cfg s) :
    (SetupPythonPrefix cfg s).consoleBuffering = s.consoleBuffering := by
  obtain ⟨pn, h⟩ := SetupPythonPrefix_shape cfg s; rw [h]

@[simp] theorem svp_pyInit (cfg s) : (SetupVTKPythonPaths cfg s).pyInit = s.pyInit := by
  obtain ⟨q, h⟩ := SetupVTKPythonPaths_shape cfg s; rw [h]

@[simp] theorem svp_initializedOnce (cfg s) :
    (SetupVTKPythonPaths cfg s).initializedOnce = s.initializedOnce := by
  obtain ⟨q, h⟩ := SetupVTKPythonPaths_shape cfg s; rw [h]

@[simp] theorem svp_pythonPaths (cfg s) :
    (SetupVTKPythonPaths cfg s).pythonPaths = s.pythonPaths := by
  obtain ⟨q, h⟩ := SetupVTKPythonPaths_shape cfg s; rw [h]

@[simp] theorem svp_streamsBound (cfg s) :
    (SetupVTKPythonPaths cfg s).streamsBound = s.streamsBound := by
  obtain ⟨q, h⟩ := SetupVTKPythonPaths_shape cfg s; rw [h]

@[simp] theorem svp_interpreters (cfg s) :
    (SetupVTKPythonPaths cfg s).interpreters = s.interpreters := by
  obtain ⟨q, h⟩ := SetupVTKPythonPaths_shape cfg s; rw [h]

@[simp] theorem svp_destroyed (cfg s) :
    (SetupVTKPythonPaths cfg s).destroyed = s.destroyed := by
  obtain ⟨q, h⟩ := SetupVTKPythonPaths_shape cfg s; rw [h]

@[simp] theorem svp_pythonVerboseFlag (cfg s) :
    (SetupVTKPythonPaths cfg s).pythonVerboseFlag = s.pythonVerboseFlag := by
  obtain ⟨q, h⟩ := SetupVTKPythonPaths_shape cfg s; rw [h]

@[simp] theorem svp_log (cfg s) : (SetupVTKPythonPaths cfg s).log = s.log := by
  obtain ⟨q, h⟩ := SetupVTKPythonPaths_shape cfg s; rw [h]

@[simp] theorem svp_stdOutBuffer (cfg s) :
    (SetupVTKPythonPaths cfg s).stdOutBuffer = s.stdOutBuffer := by
  obtain ⟨q, h⟩ := SetupVTKPythonPaths_shape cfg s; rw [h]

@[simp] theorem svp_stdErrBuffer (cfg s) :
    (SetupVTKPythonPaths cfg s).stdErrBuffer = s.stdErrBuffer := by
  obtain ⟨q, h⟩ := SetupVTKPythonPaths_shape cfg s; rw [h]

@[simp] theorem svp_consoleBuffering (cfg s) :
    (SetupVTKPythonPaths cfg s).consoleBuffering = s.consoleBuffering := by
  obtain ⟨q, h⟩ := SetupVTKPythonPaths_shape cfg s; rw [h]

@[simp] theorem RSS2_pyInit (cfg sc s) : (RSSCore cfg sc s).2.pyInit = s.pyInit := by
  rw [RSSCore_eq cfg sc s _ _ _ rfl rfl rfl]

@[simp] theorem RSS2_initializedOnce (cfg sc s) :
    (RSSCore cfg sc s).2.initializedOnce = s.initializedOnce := by
  rw [RSSCore_eq cfg sc s _ _ _ rfl rfl rfl]

@[simp] theorem RSS2_pythonPaths (cfg sc s) :
    (RSSCore cfg sc s).2.pythonPaths = s.pythonPaths := by
  rw [RSSCore_eq cfg sc s _ _ _ rfl rfl rfl]

@[simp] theorem RSS2_sysPath (cfg sc s) : (RSSCore cfg sc s).2.sysPath = s.sysPath := by
  rw [RSSCore_eq cfg sc s _ _ _ rfl rfl rfl]

@[simp] theorem RSS2_streamsBound (cfg sc s) :
    (RSSCore cfg sc s).2.streamsBound = s.streamsBound := by
  rw [RSSCore_eq cfg sc s _ _ _ rfl rfl rfl]

@[simp] theorem RSS2_interpreters (cfg sc s) :
    (RSSCore cfg sc s).2.interpreters = s.interpreters := by
  rw [RSSCore_eq cfg sc s _ _ _ rfl rfl rfl]

@[simp] theorem RSS2_destroyed (cfg sc s) :
    (RSSCore cfg sc s).2.destroyed = s.destroyed := by
  rw [RSSCore_eq cfg sc s _ _ _ rfl rfl rfl]

@[simp] theorem RSS2_pythonVerboseFlag (cfg sc s) :
    (RSSCore cfg sc s).2.pythonVerboseFlag = s.pythonVerboseFlag := by
  rw [RSSCore_eq cfg sc s _ _ _ rfl rfl rfl]

@[simp] theorem RSS2_consoleBuffering (cfg sc s) :
    (RSSCore cfg sc s).2.consoleBuffering = false := by
  rw [RSSCore_eq cfg sc s _ _ _ rfl rfl rfl]

@[simp] theorem RSS2_stdOutBuffer (cfg sc s) : (RSSCore cfg sc s).2.stdOutBuffer = "" := by
  rw [RSSCore_eq cfg sc s _ _ _ rfl rfl rfl]

@[simp] theorem RSS2_stdErrBuffer (cfg sc s) : (RSSCore cfg sc s).2.stdErrBuffer = "" := by
  rw [RSSCore_eq cfg sc s _ _ _ rfl rfl rfl]

/-! ### Claim C1 -/

/-- Experiment harness for claim C1: perform `n` successive calls to
`Initialize` in one process, collecting the returned booleans in order. -/
def iterateInit (cfg : Config) : Nat → PyState → List Bool × PyState
  | 0, s => ([], s)
  | n + 1, s =>
    let r := Initialize cfg s
    let rest := iterateInit cfg n r.2
    (r.1 :: rest.1, rest.2)

theorem iterateInit_saturated (cfg : Config) (n : Nat) (s : PyState)
    (h1 : s.pyInit = true) (h2 : s.initializedOnce = true) :
    iterateInit cfg n s = (List.replicate n false, s) := by
  induction n with
  | zero => rfl
  | succ n ih =>
    simp only [iterateInit, Initialize]
    rw [InitializeF_saturated cfg 8 s h1 h2]
    simp [ih, List.replicate_succ]

theorem Initialize_fresh_sat (cfg : Config) (s : PyState)
    (h1 : s.pyInit = false) (h2 : s.initializedOnce = false) :
    (Initialize cfg s).1 = true ∧ (Initialize cfg s).2.pyInit = true
      ∧ (Initialize cfg s).2.initializedOnce = true
      ∧ (Initialize cfg s).2.streamsBound = true := by
  unfold Initialize
  rw [InitializeF_step cfg 7 s h1 h2]
  refine ⟨rfl, ?_, ?_, ?_⟩ <;>
    simp [foldl_vtkPrepend, pyInitializeEx]

/-- Claim C1: for every N>1 sequence of calls to `Initialize` in one
process (a fresh state: runtime not started, never initialized), the
one-time setup runs exactly once — the first call returns `true`, every
later call returns `false` and leaves the state exactly as the first call
left it (so no setup step is repeated); the stream bridge is bound after
the first call. -/
theorem C1_Initialize_once (cfg : Config) (s : PyState) (n : Nat)
    (h1 : s.pyInit = false) (h2 : s.initializedOnce = false) :
    iterateInit cfg (n + 1) s
        = (true :: List.replicate n false, (Initialize cfg s).2)
      ∧ (Initialize cfg s).2.streamsBound = true := by
  obtain ⟨hret, hpy, honce, hsb⟩ := Initialize_fresh_sat cfg s h1 h2
  refine ⟨?_, hsb⟩
  simp only [iterateInit]
  rw [iterateInit_saturated cfg n _ hpy honce, hret]

/-- Shared concrete configuration for the witnesses. -/
def cfgW : Config := {
  fs := ⟨fun p => p == "/a/b/c/sp/vtk/__init__.py", fun _ => true⟩
  exec := fun _ => ⟨0, [(false, "x"), (false, "\n")]⟩
  sitePackagesSuffix := "sp"
  locate := fun _ => ""
  decodeLocale := fun a => if a = "bad" then none else some a
  pyMainNative := fun _ => 0
  initialSysPath := ["STD"]
  vtkLib := ""
  collapseSplit := fun _ => [] }

/-- Witness for C1 at a fresh state with three calls. -/
theorem C1_witness :
    freshState.pyInit = false ∧ freshState.initializedOnce = false ∧
      (iterateInit cfgW 3 freshState
          = (true :: List.replicate 2 false, (Initialize cfgW freshState).2)
        ∧ (Initialize cfgW freshState).2.streamsBound = true) :=
  ⟨rfl, rfl, C1_Initialize_once cfgW freshState 2 rfl rfl⟩

/-! ### Claims C10, C8, C9, C5 -/

/-- Claim C10: calling `PrependPythonPath` with a null directory pointer is
a total no-op: the pending list, the live `sys.path`, and everything else
are left untouched, whether or not the interpreter is initialized. -/
theorem C10_null_noop (s : PyState) : PrependPythonPath none s = s := rfl

/-- Claim C8: whenever `PYTHONHOME` is already set, `SetupPythonPrefix`
does nothing — the state is returned unchanged (in particular the program
name is unchanged), and, since the theorem holds for every `Config`, the
result does not consult the runtime-library locator at all. -/
theorem C8_pythonhome_noop (cfg : Config) (s : PyState)
    (h : s.pythonHome.isSome = true) : SetupPythonPrefix cfg s = s := by
  unfold SetupPythonPrefix
  cases hp : s.pythonHome with
  | none => rw [hp] at h; simp at h
  | some v => rfl

/-- Witness for C8: a state whose `PYTHONHOME` is set. -/
theorem C8_witness :
    ({ freshState with pythonHome := some "/usr" } : PyState).pythonHome.isSome = true
      ∧ SetupPythonPrefix cfgW { freshState with pythonHome := some "/usr" }
          = { freshState with pythonHome := some "/usr" } :=
  ⟨rfl, C8_pythonhome_noop cfgW { freshState with pythonHome := some "/usr" } rfl⟩

theorem RSS_ready (cfg : Config) (sc : Option String) (s : PyState)
    (h1 : s.pyInit = true) (h2 : s.initializedOnce = true) :
    RunSimpleString cfg sc s = RSSCore cfg sc s := by
  unfold RunSimpleString
  rw [InitializeF_saturated cfg 8 s h1 h2]

@[simp] theorem executedScripts_nil : executedScripts [] = [] := rfl

@[simp] theorem executedScripts_append (a b : List Event) :
    executedScripts (a ++ b) = executedScripts a ++ executedScripts b :=
  List.filterMap_append a b _

@[simp] theorem executedScripts_cons_notify (t k p l) :
    executedScripts (Event.notify t k p :: l) = executedScripts l := rfl

@[simp] theorem executedScripts_cons_displayText (x l) :
    executedScripts (Event.displayText x :: l) = executedScripts l := rfl

@[simp] theorem executedScripts_cons_displayError (x l) :
    executedScripts (Event.displayError x :: l) = executedScripts l := rfl

@[simp] theorem executedScripts_cons_executed (x l) :
    executedScripts (Event.executed x :: l) = x :: executedScripts l := rfl

@[simp] theorem executedScripts_notifyMap (ts : List Nat) (k p) :
    executedScripts (ts.map fun t => Event.notify t k p) = [] := by
  induction ts with
  | nil => rfl
  | cons a r ih => simp [ih]

@[simp] theorem executedScripts_ite (c : Prop) [Decidable c] (a b : List Event) :
    executedScripts (if c then a else b)
      = if c then executedScripts a else executedScripts b := by
  split <;> rfl

/-- Claim C9: `RunSimpleString` removes every carriage-return character
from the script before handing it to the runtime: in a ready state the
only script handed to `PyRun_SimpleString` is the CR-stripped text, that
text contains no `\r`, and stripping makes `"a\r\nb\r\n"` the same
executed text as `"a\nb\n"`. -/
theorem C9_strip_cr (cfg : Config) (sc : Option String) (s : PyState)
    (h1 : s.pyInit = true) (h2 : s.initializedOnce = true) :
    executedScripts (RunSimpleString cfg sc s).2.log
        = executedScripts s.log ++ [removeCR (scriptText sc)]
      ∧ (removeCR (scriptText sc)).toList.contains '\r' = false
      ∧ removeCR "a\r\nb\r\n" = "a\nb\n" := by
  refine ⟨?_, ?_, by decide⟩
  · rw [RSS_ready cfg sc s h1 h2, RSSCore_eq cfg sc s _ _ _ rfl rfl rfl]
    simp
  · unfold removeCR
    simp [List.contains_eq_any_beq, List.any_eq_true]

/-- Witness for C9 at a ready state and the DOS-line-ending script. -/
theorem C9_witness :
    ({ freshState with pyInit := true, initializedOnce := true } : PyState).pyInit = true
      ∧ ({ freshState with pyInit := true, initializedOnce := true } : PyState).initializedOnce
          = true
      ∧ (executedScripts
            (RunSimpleString cfgW (some "a\r\nb\r\n")
              { freshState with pyInit := true, initializedOnce := true }).2.log
          = executedScripts
              ({ freshState with pyInit := true, initializedOnce := true } : PyState).log
            ++ [removeCR (scriptText (some "a\r\nb\r\n"))]
        ∧ (removeCR (scriptText (some "a\r\nb\r\n"))).toList.contains '\r' = false
        ∧ removeCR "a\r\nb\r\n" = "a\nb\n") :=
  ⟨rfl, rfl,
    C9_strip_cr cfgW (some "a\r\nb\r\n")
      { freshState with pyInit := true, initializedOnce := true } rfl rfl⟩

/-- Claim C5: every instance is appended to the registry by its
constructor; the destructor removes the first exact-identity match and
nulls the weak references, so a subsequent `NotifyInterpreters` delivers
nothing to the destroyed instance while still delivering exactly to the
live registered ones. -/
theorem C5_observer_lifecycle (s : PyState) (id idB : Nat) (k : EventKind) (p : Option String)
    (hne : idB ≠ id) (hreg : idB ∈ s.interpreters)
    (hlive : s.destroyed.contains idB = false) :
    (construct id s).interpreters = s.interpreters ++ [id]
      ∧ (destroy id s).interpreters = s.interpreters.erase id
      ∧ Event.notify id k p ∉ newEvents (destroy id s) (NotifyInterpreters k p (destroy id s))
      ∧ Event.notify idB k p ∈ newEvents (destroy id s) (NotifyInterpreters k p (destroy id s)) := by
  refine ⟨rfl, rfl, ?_, ?_⟩
  · simp only [newEvents, NotifyInterpreters]
    rw [List.drop_left]
    simp only [List.mem_map, not_exists]
    rintro t ⟨ht, hEq⟩
    obtain rfl : t = id := by
      cases hEq
      rfl
    simp [liveTargets, destroy] at ht
  · simp only [newEvents, NotifyInterpreters]
    rw [List.drop_left]
    simp only [List.mem_map]
    refine ⟨idB, ?_, rfl⟩
    simp [liveTargets, destroy, hlive, hne, (List.mem_erase_of_ne hne).mpr hreg]
    simpa using hlive

/-- Witness for C5: registry `[1, 2]`, destroy instance 1, notify: 2 still
receives the event, 1 does not. -/
theorem C5_witness :
    ((2 : Nat) ≠ 1
      ∧ 2 ∈ ({ freshState with interpreters := [1, 2] } : PyState).interpreters
      ∧ ({ freshState with interpreters := [1, 2] } : PyState).destroyed.contains 2 = false)
    ∧ ((construct 1 { freshState with interpreters := [1, 2] }).interpreters
          = ({ freshState with interpreters := [1, 2] } : PyState).interpreters ++ [1]
      ∧ (destroy 1 { freshState with interpreters := [1, 2] }).interpreters
          = ({ freshState with interpreters := [1, 2] } : PyState).interpreters.erase 1
      ∧ Event.notify 1 EventKind.enter none
          ∉ newEvents (destroy 1 { freshState with interpreters := [1, 2] })
              (NotifyInterpreters EventKind.enter none
                (destroy 1 { freshState with interpreters := [1, 2] }))
      ∧ Event.notify 2 EventKind.enter none
          ∈ newEvents (destroy 1 { freshState with interpreters := [1, 2] })
              (NotifyInterpreters EventKind.enter none
                (destroy 1 { freshState with interpreters := [1, 2] }))) :=
  ⟨⟨by decide, by decide, rfl⟩,
    C5_observer_lifecycle { freshState with interpreters := [1, 2] } 1 2 EventKind.enter none
      (by decide) (by decide) rfl⟩

/-! ### Claim C3 -/

/-- A filesystem is coherent when a file existing under a directory forces
the directory to exist: `a/b` readable as a file implies `a` is a
directory.  Real filesystems satisfy this; it connects the walk's landmark
check (`FileExists`) with `vtkSafePrependPythonPath`'s directory check. -/
def coherentFS (fs : FileSystem) : Prop :=
  ∀ a b : String, fs.fileExists (a ++ "/" ++ b) = true → fs.isDirectory a = true

/-- Structural worker for `ancestorChains` (exact length fuel, as in
`landmarkWalkAux`). -/
def ancestorChainsAux : Nat → List String → List (List String)
  | 0, _ => []
  | _ + 1, [] => []
  | n + 1, c :: rest => (c :: rest) :: ancestorChainsAux n (c :: rest).dropLast

/-- The candidate component lists the walk visits, most specific (deepest)
ancestor first: the full list, then with the last component removed, and
so on. -/
def ancestorChains (comps : List String) : List (List String) :=
  ancestorChainsAux comps.length comps

theorem ancestorChains_nil : ancestorChains [] = [] := rfl

theorem ancestorChains_cons (c : String) (rest : List String) :
    ancestorChains (c :: rest) = (c :: rest) :: ancestorChains (c :: rest).dropLast := by
  simp [ancestorChains, ancestorChainsAux, List.length_dropLast]

theorem pathToCheck_isEmpty (sp : String) (comps : List String) :
    (pathToCheck sp comps).isEmpty = false := by
  rw [Bool.eq_false_iff]
  intro h
  have he := (String.isEmpty_iff _).mp h
  have hlen := congrArg String.length he
  have hsl : String.length "/" = 1 := rfl
  have h0 : String.length "" = 0 := rfl
  simp only [pathToCheck, String.length_append, hsl, h0] at hlen
  omega

theorem landmarkWalk_find_aux (fs : FileSystem) (sp : String) (hco : coherentFS fs) :
    ∀ (n : Nat) (comps : List String) (s : PyState), comps.length ≤ n →
      landmarkWalk fs sp comps s =
        match (ancestorChains comps).find?
            (fun c => fs.fileExists (pathToCheck sp c ++ "/" ++ landmarkFile)) with
        | none => s
        | some c => { s with sysPath := pathToCheck sp c :: s.sysPath } := by
  intro n
  induction n with
  | zero =>
    intro comps s hle
    have hc : comps = [] := List.eq_nil_of_length_eq_zero (Nat.le_zero.mp hle)
    subst hc
    simp [landmarkWalk_nil, ancestorChains_nil]
  | succ n ih =>
    intro comps s hle
    cases comps with
    | nil => simp [landmarkWalk_nil, ancestorChains_nil]
    | cons c rest =>
      rw [landmarkWalk_cons, ancestorChains_cons]
      cases hf : fs.fileExists (pathToCheck sp (c :: rest) ++ "/" ++ landmarkFile) with
      | true =>
        simp only [hf, if_true, List.find?]
        unfold vtkSafePrependPythonPath
        rw [if_pos]
        · rfl
        · rw [pathToCheck_isEmpty sp (c :: rest)]
          simp [hco (pathToCheck sp (c :: rest)) landmarkFile hf]
      | false =>
        simp only [hf, Bool.false_eq_true, if_false, List.find?]
        apply ih
        simp only [List.length_dropLast, List.length_cons] at hle ⊢
        omega

/-- Claim C3: over a coherent filesystem, the landmark walk of
`SetupVTKPythonPaths` is exactly "first ancestor wins": scanning the
ancestor chains from most specific to least specific, the first one whose
`<candidate>/<site-packages-suffix>/<landmark>` file exists has its
`<candidate>/<site-packages-suffix>` prepended to the module search path
and the walk stops; when no ancestor has the landmark, the state is
returned unchanged. -/
theorem C3_landmark_walk (fs : FileSystem) (sp : String) (comps : List String) (s : PyState)
    (hco : coherentFS fs) :
    landmarkWalk fs sp comps s =
      match (ancestorChains comps).find?
          (fun c => fs.fileExists (pathToCheck sp c ++ "/" ++ landmarkFile)) with
      | none => s
      | some c => { s with sysPath := pathToCheck sp c :: s.sysPath } :=
  landmarkWalk_find_aux fs sp hco comps.length comps s (Nat.le_refl _)

/-- Witness for C3: with the landmark present exactly at
`/a/b/c/sp/vtk/__init__.py`, the walk starting at `/a/b/c` registers
`/a/b/c/sp`; the same walk over an empty filesystem registers nothing. -/
theorem C3_witness :
    coherentFS cfgW.fs
      ∧ landmarkWalk cfgW.fs "sp" ["/", "a", "b", "c"] freshState
          = { freshState with sysPath := ["/a/b/c/sp"] }
      ∧ landmarkWalk ⟨fun _ => false, fun _ => false⟩ "sp" ["/", "a", "b", "c"] freshState
          = freshState := by
  refine ⟨fun a b h => rfl, ?_, ?_⟩
  · rw [C3_landmark_walk cfgW.fs "sp" ["/", "a", "b", "c"] freshState (fun a b h => rfl)]
    decide
  · rw [C3_landmark_walk ⟨fun _ => false, fun _ => false⟩ "sp" ["/", "a", "b", "c"] freshState
      (fun a b h => by simp at h)]
    decide

/-! ### Claims C6 and C7 -/

theorem InitializeF_stepAny (cfg : Config) (f : Nat) (s : PyState)
    (h2 : s.initializedOnce = false) :
    InitializeF cfg (f + 1) s =
      (true,
       NotifyInterpreters EventKind.enter none
         (let s1 := if s.pyInit then s else pyInitializeEx cfg (SetupPythonPrefix cfg s)
          let s5 := SetupVTKPythonPaths cfg
            { (RSSCore cfg (some "") { s1 with initializedOnce := true }).2 with
              streamsBound := true }
          s5.pythonPaths.foldl (fun t p => vtkPrependPythonPath p t) s5)) := by
  cases hpy : s.pyInit with
  | true =>
    simp only [InitializeF, hpy, if_true, h2, Bool.false_eq_true, if_false]
    rw [InitializeF_saturated cfg f] <;> rfl
  | false =>
    rw [InitializeF_step cfg f s hpy h2]
    simp only [hpy, Bool.false_eq_true, if_false]

@[simp] theorem RSS2_log (cfg : Config) (sc : Option String) (s : PyState) :
    (RSSCore cfg sc s).2.log =
      s.log ++ [Event.executed (removeCR (scriptText sc))]
        ++ (if (s.stdErrBuffer ++ concatErr
              (if s.streamsBound then (cfg.exec (removeCR (scriptText sc))).writes
               else [])).isEmpty then []
            else Event.displayError (s.stdErrBuffer ++ concatErr
                (if s.streamsBound then (cfg.exec (removeCR (scriptText sc))).writes else [])) ::
              (liveTargets s).map (fun t => Event.notify t EventKind.error
                (some (s.stdErrBuffer ++ concatErr
                  (if s.streamsBound then (cfg.exec (removeCR (scriptText sc))).writes
                   else [])))))
        ++ (if (s.stdOutBuffer ++ concatOut
              (if s.streamsBound then (cfg.exec (removeCR (scriptText sc))).writes
               else [])).isEmpty then []
            else Event.displayText (s.stdOutBuffer ++ concatOut
                (if s.streamsBound then (cfg.exec (removeCR (scriptText sc))).writes else [])) ::
              (liveTargets s).map (fun t => Event.notify t EventKind.setOutput
                (some (s.stdOutBuffer ++ concatOut
                  (if s.streamsBound then (cfg.exec (removeCR (scriptText sc))).writes
                   else []))))) := by
  rw [RSSCore_eq cfg sc s _ _ _ rfl rfl rfl]

@[simp] theorem nativeCalls_nil : nativeCalls [] = [] := rfl

@[simp] theorem nativeCalls_append (a b : List Event) :
    nativeCalls (a ++ b) = nativeCalls a ++ nativeCalls b :=
  List.filterMap_append a b _

@[simp] theorem nativeCalls_cons_notify (t k p l) :
    nativeCalls (Event.notify t k p :: l) = nativeCalls l := rfl

@[simp] theorem nativeCalls_cons_displayText (x l) :
    nativeCalls (Event.displayText x :: l) = nativeCalls l := rfl

@[simp] theorem nativeCalls_cons_displayError (x l) :
    nativeCalls (Event.displayError x :: l) = nativeCalls l := rfl

@[simp] theorem nativeCalls_cons_executed (x l) :
    nativeCalls (Event.executed x :: l) = nativeCalls l := rfl

@[simp] theorem nativeCalls_cons_decodeFailure (x l) :
    nativeCalls (Event.decodeFailure x :: l) = nativeCalls l := rfl

@[simp] theorem nativeCalls_cons_printedVersion (l) :
    nativeCalls (Event.printedVersion :: l) = nativeCalls l := rfl

@[simp] theorem nativeCalls_cons_nativeMain (x l) :
    nativeCalls (Event.nativeMain x :: l) = x :: nativeCalls l := rfl

@[simp] theorem nativeCalls_notifyMap (ts : List Nat) (k p) :
    nativeCalls (ts.map fun t => Event.notify t k p) = [] := by
  induction ts with
  | nil => rfl
  | cons a r ih => simp [ih]

@[simp] theorem nativeCalls_ite (c : Prop) [Decidable c] (a b : List Event) :
    nativeCalls (if c then a else b) = if c then nativeCalls a else nativeCalls b := by
  split <;> rfl

theorem InitializeF_nativeCalls (cfg : Config) (f : Nat) (s : PyState) :
    nativeCalls (InitializeF cfg f s).2.log = nativeCalls s.log := by
  cases f with
  | zero => rfl
  | succ n =>
    cases honce : s.initializedOnce with
    | true =>
      cases hpy : s.pyInit with
      | true => rw [InitializeF_saturated cfg (n + 1) s hpy honce]
      | false => simp [InitializeF, hpy, honce, pyInitializeEx]
    | false =>
      rw [InitializeF_stepAny cfg n s honce]
      simp [foldl_vtkPrepend]
      split <;> simp [pyInitializeEx]

theorem InitializeF_flag (cfg : Config) (f : Nat) (s : PyState) :
    (InitializeF cfg f s).2.pythonVerboseFlag = s.pythonVerboseFlag := by
  cases f with
  | zero => rfl
  | succ n =>
    cases honce : s.initializedOnce with
    | true =>
      cases hpy : s.pyInit with
      | true => rw [InitializeF_saturated cfg (n + 1) s hpy honce]
      | false => simp [InitializeF, hpy, honce, pyInitializeEx]
    | false =>
      rw [InitializeF_stepAny cfg n s honce]
      simp [foldl_vtkPrepend]
      split <;> simp [pyInitializeEx]

theorem PyMainLoop_ok (cfg : Config) :
    ∀ (args acc : List String) (s : PyState),
      (∀ a ∈ args, a ≠ "--enable-bt" → (cfg.decodeLocale a).isSome = true) →
      (PyMainLoop cfg args acc s).1
          = cfg.pyMainNative
              (acc ++ args.filterMap
                (fun a => if a = "--enable-bt" then none else cfg.decodeLocale a))
        ∧ nativeCalls (PyMainLoop cfg args acc s).2.log
          = nativeCalls s.log
            ++ [acc ++ args.filterMap
                (fun a => if a = "--enable-bt" then none else cfg.decodeLocale a)]
        ∧ (PyMainLoop cfg args acc s).2.pythonVerboseFlag = s.pythonVerboseFlag := by
  intro args
  induction args with
  | nil =>
    intro acc s hdec
    simp [PyMainLoop]
  | cons a rest ih =>
    intro acc s hdec
    have hdec' : ∀ x ∈ rest, x ≠ "--enable-bt" → (cfg.decodeLocale x).isSome = true :=
      fun x hx => hdec x (List.mem_cons_of_mem _ hx)
    by_cases hbt : a = "--enable-bt"
    · subst hbt
      simp only [PyMainLoop, if_pos rfl]
      simpa [List.filterMap_cons] using ih acc { s with stackTraceOnError := true } hdec'
    · have hs : (cfg.decodeLocale a).isSome = true := hdec a (List.mem_cons_self a rest) hbt
      obtain ⟨w, hw⟩ := Option.isSome_iff_exists.mp hs
      by_cases hV : a = "-V"
      · simp only [PyMainLoop, if_neg hbt, if_pos hV, hw]
        simpa [List.filterMap_cons, hbt, hw, List.append_assoc] using
          ih (acc ++ [w]) { s with log := s.log ++ [Event.printedVersion] } hdec'
      · simp only [PyMainLoop, if_neg hbt, if_neg hV, hw]
        simpa [List.filterMap_cons, hbt, hw, List.append_assoc] using
          ih (acc ++ [w]) s hdec'

theorem PyMainLoop_fail (cfg : Config) :
    ∀ (args acc : List String) (s : PyState),
      (∃ a, a ∈ args ∧ a ≠ "--enable-bt" ∧ cfg.decodeLocale a = none) →
      (PyMainLoop cfg args acc s).1 = 1
        ∧ nativeCalls (PyMainLoop cfg args acc s).2.log = nativeCalls s.log := by
  intro args
  induction args with
  | nil =>
    intro acc s h
    obtain ⟨a, ha, _⟩ := h
    simp at ha
  | cons a rest ih =>
    intro acc s h
    by_cases hbt : a = "--enable-bt"
    · subst hbt
      simp only [PyMainLoop, if_pos rfl]
      apply ih
      obtain ⟨x, hx, hxbt, hxd⟩ := h
      rcases List.mem_cons.mp hx with rfl | hxr
      · exact absurd rfl hxbt
      · exact ⟨x, hxr, hxbt, hxd⟩
    · cases hw : cfg.decodeLocale a with
      | none =>
        by_cases hV : a = "-V"
        · subst hV
          simp [PyMainLoop, hbt, hw]
        · simp [PyMainLoop, hbt, hV, hw]
      | some w =>
        have h' : ∃ x, x ∈ rest ∧ x ≠ "--enable-bt" ∧ cfg.decodeLocale x = none := by
          obtain ⟨x, hx, hxbt, hxd⟩ := h
          rcases List.mem_cons.mp hx with rfl | hxr
          · rw [hw] at hxd; exact absurd hxd (by simp)
          · exact ⟨x, hxr, hxbt, hxd⟩
        by_cases hV : a = "-V"
        · simp only [PyMainLoop, if_neg hbt, if_pos hV, hw]
          simpa using ih (acc ++ [w]) { s with log := s.log ++ [Event.printedVersion] } h'
        · simp only [PyMainLoop, if_neg hbt, if_neg hV, hw]
          simpa using ih (acc ++ [w]) s h'

/-- Counterexample for claim C6: the verbosity flag `-v` is recognized
(the flag becomes 1) but is NOT stripped — the native main entry point
receives exactly `["-v"]`, not `[]`. -/
theorem C6_counterexample :
    nativeCalls (PyMain cfgW ["-v"] freshState).2.log = [["-v"]]
      ∧ (PyMain cfgW ["-v"] freshState).2.pythonVerboseFlag = 1 := by
  decide

/-- Claim C6 as amended: `-v` / `-vv` only set the verbosity flag (a
single `-v` gives 1, `-vv` gives 2) and, like every argument other than
`--enable-bt`, pass through (decoded) to the runtime's native main entry
point in order; only `--enable-bt` is stripped. -/
theorem C6_amended_passthrough (cfg : Config) (args : List String) (s : PyState)
    (hdec : ∀ a ∈ args, a ≠ "--enable-bt" → (cfg.decodeLocale a).isSome = true) :
    (PyMain cfg args s).1
        = cfg.pyMainNative (args.filterMap
            (fun a => if a = "--enable-bt" then none else cfg.decodeLocale a))
      ∧ nativeCalls (PyMain cfg args s).2.log
        = nativeCalls s.log ++ [args.filterMap
            (fun a => if a = "--enable-bt" then none else cfg.decodeLocale a)]
      ∧ (PyMain cfg args s).2.pythonVerboseFlag = verbosityScan args
      ∧ verbosityScan ["-v"] = 1 ∧ verbosityScan ["-vv"] = 2 := by
  obtain ⟨l1, l2, l3⟩ := PyMainLoop_ok cfg args []
    ((InitializeF cfg 8 { s with pythonVerboseFlag := verbosityScan args }).2) hdec
  refine ⟨?_, ?_, ?_, by decide, by decide⟩
  · unfold PyMain
    rw [l1]
    simp
  · unfold PyMain
    rw [l2, InitializeF_nativeCalls]
    simp
  · unfold PyMain
    rw [l3, InitializeF_flag]

/-- Witness for the amended C6: `--enable-bt` is stripped, `x` and `-v`
pass through. -/
theorem C6_witness :
    (PyMain cfgW ["--enable-bt", "x", "-v"] freshState).1
        = cfgW.pyMainNative (["--enable-bt", "x", "-v"].filterMap
            (fun a => if a = "--enable-bt" then none else cfgW.decodeLocale a))
      ∧ nativeCalls (PyMain cfgW ["--enable-bt", "x", "-v"] freshState).2.log
        = nativeCalls freshState.log ++ [["--enable-bt", "x", "-v"].filterMap
            (fun a => if a = "--enable-bt" then none else cfgW.decodeLocale a)]
      ∧ (PyMain cfgW ["--enable-bt", "x", "-v"] freshState).2.pythonVerboseFlag
          = verbosityScan ["--enable-bt", "x", "-v"]
      ∧ verbosityScan ["-v"] = 1 ∧ verbosityScan ["-vv"] = 2 :=
  C6_amended_passthrough cfgW ["--enable-bt", "x", "-v"] freshState (by decide)

/-- Claim C7: when some argument (other than the stripped `--enable-bt`)
cannot be decoded, `PyMain` returns exit code 1 and the runtime's native
main entry point is never invoked. -/
theorem C7_decode_failure (cfg : Config) (args : List String) (s : PyState)
    (h : ∃ a, a ∈ args ∧ a ≠ "--enable-bt" ∧ cfg.decodeLocale a = none) :
    (PyMain cfg args s).1 = 1
      ∧ nativeCalls (PyMain cfg args s).2.log = nativeCalls s.log := by
  unfold PyMain
  obtain ⟨l1, l2⟩ := PyMainLoop_fail cfg args []
    ((InitializeF cfg 8 { s with pythonVerboseFlag := verbosityScan args }).2) h
  refine ⟨l1, ?_⟩
  rw [l2, InitializeF_nativeCalls]

/-- Witness for C7: `"bad"` does not decode, so `PyMain` fails with 1 and
`Py_Main` is never reached. -/
theorem C7_witness :
    ("bad" ∈ ["ok", "bad"] ∧ "bad" ≠ "--enable-bt" ∧ cfgW.decodeLocale "bad" = none)
      ∧ (PyMain cfgW ["ok", "bad"] freshState).1 = 1
      ∧ nativeCalls (PyMain cfgW ["ok", "bad"] freshState).2.log
          = nativeCalls freshState.log :=
  ⟨⟨by decide, by decide, rfl⟩,
    C7_decode_failure cfgW ["ok", "bad"] freshState ⟨"bad", by decide, by decide, rfl⟩⟩

/-! ### Claim C4 -/

theorem filter_notifyMap_displayText (ts : List Nat) (k p) :
    (ts.map fun t => Event.notify t k p).filter isDisplayText = [] := by
  induction ts with
  | nil => rfl
  | cons a r ih => simp [isDisplayText, ih]

theorem filter_notifyMap_displayError (ts : List Nat) (k p) :
    (ts.map fun t => Event.notify t k p).filter isDisplayError = [] := by
  induction ts with
  | nil => rfl
  | cons a r ih => simp [isDisplayError, ih]

theorem filter_notifyMap_same (id : Nat) (k : EventKind) (p : Option String) (ts : List Nat) :
    (ts.map fun t => Event.notify t k p).filter (isNotifyTo id k)
      = (ts.filter fun t => t == id).map (fun t => Event.notify t k p) := by
  induction ts with
  | nil => rfl
  | cons a r ih =>
    cases hab : (a == id) with
    | true => simp [List.filter_cons, isNotifyTo, hab, ih]
    | false => simp [List.filter_cons, isNotifyTo, hab, ih]

theorem filter_notifyMap_diff (id : Nat) (k k' : EventKind) (p : Option String)
    (ts : List Nat) (hkk : (k == k') = false) :
    (ts.map fun t => Event.notify t k' p).filter (isNotifyTo id k) = [] := by
  induction ts with
  | nil => rfl
  | cons a r ih => simp [isNotifyTo, hkk, ih]

theorem filter_beq_replicate (l : List Nat) (id : Nat) :
    l.filter (fun t => t == id) = List.replicate (l.count id) id := by
  induction l with
  | nil => rfl
  | cons a r ih =>
    by_cases h : a = id
    · subst h
      simp [List.filter_cons, List.count_cons, ih, List.replicate_succ]
    · simp [List.filter_cons, List.count_cons, h, ih]

theorem liveTargets_filter_single (s : PyState) (id : Nat)
    (hcount : s.interpreters.count id = 1) (hlive : s.destroyed.contains id = false) :
    (liveTargets s).filter (fun t => t == id) = [id] := by
  unfold liveTargets
  rw [List.filter_filter]
  have hcongr : ∀ a ∈ s.interpreters,
      ((a == id) && !s.destroyed.contains a) = (a == id) := by
    intro a _
    by_cases h : a = id
    · subst h
      simp only [beq_self_eq_true, Bool.true_and, hlive, Bool.not_false]
    · simp [h]
  rw [List.filter_congr hcongr, filter_beq_replicate, hcount]
  rfl

/-- Claim C4: during one `RunSimpleString` call from a clean ready state,
output the interpreter writes is accumulated in the stdout/stderr buffers
rather than forwarded per write: however many write fragments the
execution produces, the call emits at most one display call and at most
one notification per stream — exactly one, carrying the full concatenated
text, when the accumulated text is non-empty — and afterwards both
accumulators are cleared and console buffering is off again. -/
theorem C4_buffering (cfg : Config) (sc : Option String) (s : PyState) (id : Nat)
    (h1 : s.pyInit = true) (h2 : s.initializedOnce = true)
    (hsb : s.streamsBound = true) (_hcb : s.consoleBuffering = false)
    (hob : s.stdOutBuffer = "") (heb : s.stdErrBuffer = "")
    (hcount : s.interpreters.count id = 1) (hlive : s.destroyed.contains id = false) :
    (RunSimpleString cfg sc s).2.stdOutBuffer = ""
      ∧ (RunSimpleString cfg sc s).2.stdErrBuffer = ""
      ∧ (RunSimpleString cfg sc s).2.consoleBuffering = false
      ∧ (newEvents s (RunSimpleString cfg sc s).2).filter isDisplayText
        = (if (concatOut (cfg.exec (removeCR (scriptText sc))).writes).isEmpty then []
           else [Event.displayText (concatOut (cfg.exec (removeCR (scriptText sc))).writes)])
      ∧ (newEvents s (RunSimpleString cfg sc s).2).filter isDisplayError
        = (if (concatErr (cfg.exec (removeCR (scriptText sc))).writes).isEmpty then []
           else [Event.displayError (concatErr (cfg.exec (removeCR (scriptText sc))).writes)])
      ∧ (newEvents s (RunSimpleString cfg sc s).2).filter (isNotifyTo id EventKind.setOutput)
        = (if (concatOut (cfg.exec (removeCR (scriptText sc))).writes).isEmpty then []
           else [Event.notify id EventKind.setOutput
                  (some (concatOut (cfg.exec (removeCR (scriptText sc))).writes))])
      ∧ (newEvents s (RunSimpleString cfg sc s).2).filter (isNotifyTo id EventKind.error)
        = (if (concatErr (cfg.exec (removeCR (scriptText sc))).writes).isEmpty then []
           else [Event.notify id EventKind.error
                  (some (concatErr (cfg.exec (removeCR (scriptText sc))).writes))]) := by
  rw [RSS_ready cfg sc s h1 h2,
    RSSCore_eq cfg sc s ((cfg.exec (removeCR (scriptText sc))).writes)
      (concatErr ((cfg.exec (removeCR (scriptText sc))).writes))
      (concatOut ((cfg.exec (removeCR (scriptText sc))).writes))
      (by simp [hsb]) (by simp [heb]) (by simp [hob])]
  refine ⟨rfl, rfl, rfl, ?_, ?_, ?_, ?_⟩ <;>
  · simp only [newEvents, List.append_assoc, List.drop_left]
    by_cases hE : (concatErr ((cfg.exec (removeCR (scriptText sc))).writes)).isEmpty <;>
      by_cases hO : (concatOut ((cfg.exec (removeCR (scriptText sc))).writes)).isEmpty <;>
      simp [hE, hO, List.filter_cons, List.filter_append, isDisplayText, isDisplayError,
        isNotifyTo, filter_notifyMap_displayText, filter_notifyMap_displayError,
        filter_notifyMap_same, filter_notifyMap_diff,
        liveTargets_filter_single s id hcount hlive]

/-- Witness for C4: a live observer `7`, a script whose execution writes
`"x"` then `"\n"` to stdout — one display and one notification carrying
`"x\n"`, nothing on stderr. -/
theorem C4_witness :
    (RunSimpleString cfgW (some "print('x')")
        { freshState with pyInit := true, initializedOnce := true, streamsBound := true,
                          interpreters := [7] }).2.stdOutBuffer = ""
      ∧ (RunSimpleString cfgW (some "print('x')")
          { freshState with pyInit := true, initializedOnce := true, streamsBound := true,
                            interpreters := [7] }).2.stdErrBuffer = ""
      ∧ (RunSimpleString cfgW (some "print('x')")
          { freshState with pyInit := true, initializedOnce := true, streamsBound := true,
                            interpreters := [7] }).2.consoleBuffering = false
      ∧ (newEvents
            { freshState with pyInit := true, initializedOnce := true, streamsBound := true,
                              interpreters := [7] }
            (RunSimpleString cfgW (some "print('x')")
              { freshState with pyInit := true, initializedOnce := true, streamsBound := true,
                                interpreters := [7] }).2).filter isDisplayText
        = (if (concatOut (cfgW.exec (removeCR (scriptText (some "print('x')")))).writes).isEmpty
           then []
           else [Event.displayText
                  (concatOut (cfgW.exec (removeCR (scriptText (some "print('x')")))).writes)])
      ∧ (newEvents
            { freshState with pyInit := true, initializedOnce := true, streamsBound := true,
                              interpreters := [7] }
            (RunSimpleString cfgW (some "print('x')")
              { freshState with pyInit := true, initializedOnce := true, streamsBound := true,
                                interpreters := [7] }).2).filter isDisplayError
        = (if (concatErr (cfgW.exec (removeCR (scriptText (some "print('x')")))).writes).isEmpty
           then []
           else [Event.displayError
                  (concatErr (cfgW.exec (removeCR (scriptText (some "print('x')")))).writes)])
      ∧ (newEvents
            { freshState with pyInit := true, initializedOnce := true, streamsBound := true,
                              interpreters := [7] }
            (RunSimpleString cfgW (some "print('x')")
              { freshState with pyInit := true, initializedOnce := true, streamsBound := true,
                                interpreters := [7] }).2).filter
              (isNotifyTo 7 EventKind.setOutput)
        = (if (concatOut (cfgW.exec (removeCR (scriptText (some "print('x')")))).writes).isEmpty
           then []
           else [Event.notify 7 EventKind.setOutput
                  (some (concatOut (cfgW.exec (removeCR (scriptText (some "print('x')")))).writes))])
      ∧ (newEvents
            { freshState with pyInit := true, initializedOnce := true, streamsBound := true,
                              interpreters := [7] }
            (RunSimpleString cfgW (some "print('x')")
              { freshState with pyInit := true, initializedOnce := true, streamsBound := true,
                                interpreters := [7] }).2).filter (isNotifyTo 7 EventKind.error)
        = (if (concatErr (cfgW.exec (removeCR (scriptText (some "print('x')")))).writes).isEmpty
           then []
           else [Event.notify 7 EventKind.error
                  (some (concatErr (cfgW.exec (removeCR (scriptText (some "print('x')")))).writes))]) :=
  C4_buffering cfgW (some "print('x')")
    { freshState with pyInit := true, initializedOnce := true, streamsBound := true,
                      interpreters := [7] } 7 rfl rfl rfl rfl rfl rfl (by decide) rfl

/-! ### Claim C2 -/

@[simp] theorem RSS2_programName (cfg sc s) :
    (RSSCore cfg sc s).2.programName = s.programName := by
  rw [RSSCore_eq cfg sc s _ _ _ rfl rfl rfl]

@[simp] theorem freshState_pythonPaths : freshState.pythonPaths = [] := rfl

theorem SetupPythonPrefix_paths (cfg : Config) (s : PyState) (q : List String) :
    SetupPythonPrefix cfg { s with pythonPaths := q }
      = { SetupPythonPrefix cfg s with pythonPaths := q } := by
  obtain ⟨a1, a2, a3, a4, a5, a6, a7, a8, a9, a10, a11, a12, a13, a14, a15, a16⟩ := s
  unfold SetupPythonPrefix
  cases a12 with
  | some v => rfl
  | none =>
    by_cases hL : (cfg.locate "Py_SetProgramName").isEmpty
    · simp [hL]
    · by_cases hN : a13 = "python" <;> simp [hL, hN]

theorem spp_paths_programName (cfg : Config) (s : PyState) (q : List String) :
    (SetupPythonPrefix cfg { s with pythonPaths := q }).programName
      = (SetupPythonPrefix cfg s).programName := by
  rw [SetupPythonPrefix_paths]

theorem landmarkWalkAux_sysPath_fun (fs : FileSystem) (sp : String) :
    ∀ (n : Nat) (comps : List String) (u v : PyState), u.sysPath = v.sysPath →
      (landmarkWalkAux fs sp n comps u).sysPath = (landmarkWalkAux fs sp n comps v).sysPath := by
  intro n
  induction n with
  | zero => intro comps u v h; exact h
  | succ n ih =>
    intro comps u v h
    cases comps with
    | nil => exact h
    | cons c rest =>
      simp only [landmarkWalkAux]
      split
      · unfold vtkSafePrependPythonPath vtkPrependPythonPath
        split <;> simp [h]
      · exact ih _ _ _ h

theorem svp_sysPath_fun (cfg : Config) (u v : PyState)
    (hpn : u.programName = v.programName) (hsys : u.sysPath = v.sysPath) :
    (SetupVTKPythonPaths cfg u).sysPath = (SetupVTKPythonPaths cfg v).sysPath := by
  unfold SetupVTKPythonPaths landmarkWalk
  rw [hpn]
  exact landmarkWalkAux_sysPath_fun cfg.fs cfg.sitePackagesSuffix _ _ u v hsys

/-- Claim C2: prepending directories `A`, `B`, `C` before startup stores
them in registration order in the pending list, and after startup the
module search path reads `C, B, A` followed by whatever the startup itself
would have put there (the path the interpreter and `SetupVTKPythonPaths`
established) — each replayed prepend inserts at the front, so the front is
the reverse of the registration order. -/
theorem C2_prepend_order (cfg : Config) (A B C : String) :
    (PrependPythonPath (some C) (PrependPythonPath (some B)
        (PrependPythonPath (some A) freshState))).pythonPaths = [A, B, C]
    ∧ (Initialize cfg (PrependPythonPath (some C) (PrependPythonPath (some B)
        (PrependPythonPath (some A) freshState)))).2.sysPath
      = C :: B :: A :: (Initialize cfg freshState).2.sysPath := by
  have hpre : PrependPythonPath (some C) (PrependPythonPath (some B)
      (PrependPythonPath (some A) freshState))
      = { freshState with pythonPaths := [A, B, C] } := rfl
  refine ⟨by rw [hpre], ?_⟩
  rw [hpre]
  unfold Initialize
  rw [InitializeF_step cfg 7 _ rfl rfl, InitializeF_step cfg 7 freshState rfl rfl]
  simp only [Notify_sysPath, foldl_vtkPrepend, svp_pythonPaths, RSS2_pythonPaths,
    pyInitializeEx, spp_pythonPaths, freshState_pythonPaths, List.reverse_cons,
    List.reverse_nil, List.nil_append, List.append_assoc, List.cons_append,
    List.singleton_append]
  exact congrArg (fun l => C :: B :: A :: l)
    (svp_sysPath_fun cfg _ _
      (by simp [RSS2_programName, pyInitializeEx, spp_paths_programName])
      (by simp [RSS2_sysPath, pyInitializeEx]))

end VTKPy
